import Mathlib

/-!
Shallow embedding of the casibase record-anchoring core
(`object/record.go`, `object/record_chain.go`, and the Ethereum chain
client), together with proofs of the specification's claims about it.

Modelling conventions:
* Go strings are modelled as Lean `String`; Go byte-indexed slicing
  (`s[0:n]`, `len(s)`) is modelled on the character sequence `s.data`.
* The record store (an external collaborator per the spec) is modelled as a
  `List Record` plus an explicit trace of store operations (`StoreOp`);
  store I/O never fails in the model.
* Fallible Go calls returning `(T, error)` are modelled as `Except String T`
  when the non-error value is unused on failure, and as tuples with an
  `Option String` error component when Go returns all components together.
* Record ids `"owner/name"` are modelled as the pair `(owner, name)`;
  `util.GetOwnerAndNameFromId` composed with `getId` is the identity.
-/

/-- The `Record` entity of `object/record.go` (field for field). -/
structure Record where
  Id : Int
  Owner : String
  Name : String
  CreatedTime : String
  Organization : String
  ClientIp : String
  UserAgent : String
  User : String
  Method : String
  RequestUri : String
  Action : String
  Language : String
  Region : String
  City : String
  Unit : String
  Section : String
  Object : String
  Response : String
  Provider : String
  Block : String
  BlockHash : String
  Transaction : String
  Provider2 : String
  Block2 : String
  BlockHash2 : String
  Transaction2 : String
  IsTriggered : Bool
  NeedCommit : Bool
deriving DecidableEq

/-- `(record *Record) getId()`: `fmt.Sprintf("%s/%s", record.Owner, record.Name)`. -/
def Record.getId (record : Record) : String :=
  record.Owner ++ "/" ++ record.Name

/-- The field-clearing block at the start of `toParam` (`record2 := *record`
followed by clearing the eight anchoring fields of both slots). -/
def clearAnchoringFields (record : Record) : Record :=
  { record with
      Provider := "", Block := "", Transaction := "", BlockHash := "",
      Provider2 := "", Block2 := "", Transaction2 := "", BlockHash2 := "" }

/-- Modelled from the spec: hexadecimal digit used by the JSON escaper for
control characters (`util.StructToJson` is not part of the given sources). -/
def hexDigit (n : Nat) : String :=
  String.singleton (Nat.digitChar n)

/-- Modelled from the spec: JSON string escaping of one character, as done by
the JSON encoder behind `util.StructToJson`. -/
def jsonEscapeChar (c : Char) : String :=
  if c = '"' then "\\\""
  else if c = '\\' then "\\\\"
  else if c = '\n' then "\\n"
  else if c = '\r' then "\\r"
  else if c = '\t' then "\\t"
  else if c.toNat < 32 then "\\u00" ++ hexDigit (c.toNat / 16) ++ hexDigit (c.toNat % 16)
  else String.singleton c

/-- Modelled from the spec: JSON escaping of a whole string. -/
def jsonEscape (s : String) : String :=
  String.join (s.data.map jsonEscapeChar)

/-- Modelled from the spec: a JSON string literal (quotes plus escaping). -/
def jsonStr (s : String) : String :=
  "\"" ++ jsonEscape s ++ "\""

/-- Modelled from the spec: `util.StructToJson` applied to a `Record` — the
JSON object with the record's fields in declaration order under their
`json:"..."` tags (`value: "<json-encoded record ...>"`, spec section 6). -/
def structToJsonRecord (r : Record) : String :=
  "\x7b\"id\":" ++ toString r.Id
    ++ ",\"owner\":" ++ jsonStr r.Owner
    ++ ",\"name\":" ++ jsonStr r.Name
    ++ ",\"createdTime\":" ++ jsonStr r.CreatedTime
    ++ ",\"organization\":" ++ jsonStr r.Organization
    ++ ",\"clientIp\":" ++ jsonStr r.ClientIp
    ++ ",\"userAgent\":" ++ jsonStr r.UserAgent
    ++ ",\"user\":" ++ jsonStr r.User
    ++ ",\"method\":" ++ jsonStr r.Method
    ++ ",\"requestUri\":" ++ jsonStr r.RequestUri
    ++ ",\"action\":" ++ jsonStr r.Action
    ++ ",\"language\":" ++ jsonStr r.Language
    ++ ",\"region\":" ++ jsonStr r.Region
    ++ ",\"city\":" ++ jsonStr r.City
    ++ ",\"unit\":" ++ jsonStr r.Unit
    ++ ",\"section\":" ++ jsonStr r.Section
    ++ ",\"object\":" ++ jsonStr r.Object
    ++ ",\"response\":" ++ jsonStr r.Response
    ++ ",\"provider\":" ++ jsonStr r.Provider
    ++ ",\"block\":" ++ jsonStr r.Block
    ++ ",\"blockHash\":" ++ jsonStr r.BlockHash
    ++ ",\"transaction\":" ++ jsonStr r.Transaction
    ++ ",\"provider2\":" ++ jsonStr r.Provider2
    ++ ",\"block2\":" ++ jsonStr r.Block2
    ++ ",\"blockHash2\":" ++ jsonStr r.BlockHash2
    ++ ",\"transaction2\":" ++ jsonStr r.Transaction2
    ++ ",\"isTriggered\":" ++ (if r.IsTriggered then "true" else "false")
    ++ ",\"needCommit\":" ++ (if r.NeedCommit then "true" else "false")
    ++ "\x7d"

/-- The `Param` struct of `object/record_chain.go`. -/
structure Param where
  Key : String
  Field : String
  Value : String
deriving DecidableEq

/-- Modelled from the spec: `util.StructToJson` applied to a `Param` — the
payload object `\x7bkey, field, value\x7d` of spec section 6. -/
def structToJsonParam (p : Param) : String :=
  "\x7b\"key\":" ++ jsonStr p.Key
    ++ ",\"field\":" ++ jsonStr p.Field
    ++ ",\"value\":" ++ jsonStr p.Value
    ++ "\x7d"

/-- `(record *Record) toParam()`: clear both slots' anchoring fields, then
serialize `\x7bKey: record2.getId(), Field: "Record", Value: json(record2)\x7d`. -/
def Record.toParam (record : Record) : String :=
  let record2 := clearAnchoringFields record
  structToJsonParam (Param.mk record2.getId ("Record") (structToJsonRecord record2))

/-- C2: canonicalization is deterministic and invariant under anchoring
state: `toParam r` equals `toParam` of `r` with all eight anchoring fields
cleared, and any two records agreeing after clearing those eight fields
(i.e. differing only in them) produce byte-identical canonical payloads. -/
theorem toParam_ignores_anchoring (r r1 r2 : Record)
    (h : clearAnchoringFields r1 = clearAnchoringFields r2) :
    Record.toParam r = Record.toParam (clearAnchoringFields r)
      ∧ Record.toParam r1 = Record.toParam r2 := by
  constructor
  · rfl
  · unfold Record.toParam
    rw [h]

/-- Witness for `toParam_ignores_anchoring`: two concrete records differing
only in the primary slot's `Block` yield the same canonical payload. -/
theorem toParam_ignores_anchoring_witness :
    Record.toParam
        (Record.mk 1 "o" "n" "t" "org" "ip" "ua" "u" "GET" "uri" "act" "en" "re" "ci" "un" "se" "ob" "resp"
          "" "" "" "" "" "" "" "" false false)
      = Record.toParam
          (clearAnchoringFields
            (Record.mk 1 "o" "n" "t" "org" "ip" "ua" "u" "GET" "uri" "act" "en" "re" "ci" "un" "se" "ob" "resp"
              "" "" "" "" "" "" "" "" false false))
    ∧ Record.toParam
        (Record.mk 1 "o" "n" "t" "org" "ip" "ua" "u" "GET" "uri" "act" "en" "re" "ci" "un" "se" "ob" "resp"
          "p" "100" "bh" "tx" "" "" "" "" false false)
      = Record.toParam
          (Record.mk 1 "o" "n" "t" "org" "ip" "ua" "u" "GET" "uri" "act" "en" "re" "ci" "un" "se" "ob" "resp"
            "" "" "" "" "" "" "" "" false false) :=
  toParam_ignores_anchoring
    (Record.mk 1 "o" "n" "t" "org" "ip" "ua" "u" "GET" "uri" "act" "en" "re" "ci" "un" "se" "ob" "resp"
      "" "" "" "" "" "" "" "" false false)
    (Record.mk 1 "o" "n" "t" "org" "ip" "ua" "u" "GET" "uri" "act" "en" "re" "ci" "un" "se" "ob" "resp"
      "p" "100" "bh" "tx" "" "" "" "" false false)
    (Record.mk 1 "o" "n" "t" "org" "ip" "ua" "u" "GET" "uri" "act" "en" "re" "ci" "un" "se" "ob" "resp"
      "" "" "" "" "" "" "" "" false false)
    (by decide)

/-- C3: the canonical ledger payload is the JSON object with exactly
`key = "<owner>/<name>"`, `field = "Record"`, and `value` the JSON encoding
of the record whose eight anchoring fields (both slots) are all empty. -/
theorem toParam_payload_shape (r : Record) :
    r.toParam
        = "\x7b\"key\":" ++ jsonStr (r.Owner ++ "/" ++ r.Name)
            ++ ",\"field\":" ++ jsonStr ("Record")
            ++ ",\"value\":" ++ jsonStr (structToJsonRecord (clearAnchoringFields r))
            ++ "\x7d"
      ∧ jsonStr ("Record") = "\"Record\""
      ∧ (clearAnchoringFields r).Provider = "" ∧ (clearAnchoringFields r).Block = ""
      ∧ (clearAnchoringFields r).BlockHash = "" ∧ (clearAnchoringFields r).Transaction = ""
      ∧ (clearAnchoringFields r).Provider2 = "" ∧ (clearAnchoringFields r).Block2 = ""
      ∧ (clearAnchoringFields r).BlockHash2 = "" ∧ (clearAnchoringFields r).Transaction2 = "" := by
  refine ⟨rfl, by decide, rfl, rfl, rfl, rfl, rfl, rfl, rfl, rfl⟩

/-- One operation issued against the record store (`adapter.engine`). -/
inductive StoreOp where
  | insert (record : Record)
  | updateFields (name : String) (fields : List (String × String))
  | updateAllCols (name : String) (record : Record)
  | deleteByName (name : String)
deriving DecidableEq

/-- Interpretation of one column assignment of a targeted field update.
Only the column names actually used by the commit paths are interpreted;
other column names leave the row unchanged. -/
def applyField (r : Record) (kv : String × String) : Record :=
  if kv.1 = "provider" then { r with Provider := kv.2 }
  else if kv.1 = "block" then { r with Block := kv.2 }
  else if kv.1 = "transaction" then { r with Transaction := kv.2 }
  else if kv.1 = "block_hash" then { r with BlockHash := kv.2 }
  else if kv.1 = "provider2" then { r with Provider2 := kv.2 }
  else if kv.1 = "block2" then { r with Block2 := kv.2 }
  else if kv.1 = "transaction2" then { r with Transaction2 := kv.2 }
  else if kv.1 = "block_hash2" then { r with BlockHash2 := kv.2 }
  else r

/-- Interpretation of a whole field map on one row. -/
def applyFields (r : Record) (fields : List (String × String)) : Record :=
  fields.foldl applyField r

/-- Store semantics of one operation, on the table of records. A full-row
update keeps the primary key `Id` of the existing row. -/
def applyOp (db : List Record) : StoreOp → List Record
  | StoreOp.insert r => db ++ [r]
  | StoreOp.updateFields name fields =>
      db.map (fun r => if r.Name = name then applyFields r fields else r)
  | StoreOp.updateAllCols name r0 =>
      db.map (fun r => if r.Name = name then { r0 with Id := r.Id } else r)
  | StoreOp.deleteByName name => db.filter (fun r => r.Name ≠ name)

/-- Store semantics of a trace of operations. -/
def runOps (db : List Record) (ops : List StoreOp) : List Record :=
  ops.foldl applyOp db

/-- `getRecord(owner, name)`: empty owner or name short-circuits to nil;
otherwise `engine.Get(&Record\x7bName: name\x7d)`, i.e. the first row whose
`name` column matches (the owner is not part of the query). -/
def getRecord (db : List Record) (owner name : String) : Option Record :=
  if owner = "" ∨ name = "" then none
  else db.find? (fun r => r.Name == name)

/-- `UpdateRecordFields(id, fields)`: look the record up by the id's
`(owner, name)`, return false if absent, else issue a targeted partial
update of the given columns on every row whose `name` matches. The returned
`Bool` is `affected != 0`. -/
def UpdateRecordFields (db : List Record) (owner name : String)
    (fields : List (String × String)) : Bool × List StoreOp :=
  match getRecord db owner name with
  | none => (false, [])
  | some _ =>
      (db.countP (fun r => r.Name == name) != 0, [StoreOp.updateFields name fields])

/-- The provider-change block of `UpdateRecord` (lines clearing a slot's
anchoring fields when that slot's provider differs from the stored one). -/
def clearChangedProviderSlots (p record : Record) : Record :=
  let record := if record.Provider ≠ p.Provider then
      { record with Block := "", BlockHash := "", Transaction := "" }
    else record
  if record.Provider2 ≠ p.Provider2 then
    { record with Block2 := "", BlockHash2 := "", Transaction2 := "" }
  else record

/-- `UpdateRecord(id, record)`: look up the stored record; if present, clear
any slot whose provider changed, then issue a full-row (`AllCols`) update on
every row whose `name` matches. -/
def UpdateRecord (db : List Record) (owner name : String) (record : Record) :
    Bool × List StoreOp :=
  match getRecord db owner name with
  | none => (false, [])
  | some p =>
      let record := clearChangedProviderSlots p record
      (db.countP (fun r => r.Name == name) != 0, [StoreOp.updateAllCols name record])

/-- `DeleteRecord(record)`: delete every row whose `name` matches
`record.Name` (`Where("name = ?", record.Name).Delete`); the owner is not
consulted. -/
def DeleteRecord (db : List Record) (record : Record) : Bool × List StoreOp :=
  (db.countP (fun r => r.Name == record.Name) != 0, [StoreOp.deleteByName record.Name])

/-- C6: on `UpdateRecord`, a slot whose provider differs from the stored
record's has its block, blockHash and transaction cleared together before
the row update is issued, independently per slot; a slot whose provider is
unchanged keeps the incoming record's anchoring fields. -/
theorem updateRecord_provider_change_clears (db : List Record) (owner name : String)
    (r p : Record) (hp : getRecord db owner name = some p) :
    (UpdateRecord db owner name r).2
        = [StoreOp.updateAllCols name (clearChangedProviderSlots p r)]
      ∧ (r.Provider ≠ p.Provider →
          (clearChangedProviderSlots p r).Block = ""
            ∧ (clearChangedProviderSlots p r).BlockHash = ""
            ∧ (clearChangedProviderSlots p r).Transaction = "")
      ∧ (r.Provider = p.Provider →
          (clearChangedProviderSlots p r).Block = r.Block
            ∧ (clearChangedProviderSlots p r).BlockHash = r.BlockHash
            ∧ (clearChangedProviderSlots p r).Transaction = r.Transaction)
      ∧ (r.Provider2 ≠ p.Provider2 →
          (clearChangedProviderSlots p r).Block2 = ""
            ∧ (clearChangedProviderSlots p r).BlockHash2 = ""
            ∧ (clearChangedProviderSlots p r).Transaction2 = "")
      ∧ (r.Provider2 = p.Provider2 →
          (clearChangedProviderSlots p r).Block2 = r.Block2
            ∧ (clearChangedProviderSlots p r).BlockHash2 = r.BlockHash2
            ∧ (clearChangedProviderSlots p r).Transaction2 = r.Transaction2) := by
  refine ⟨by simp [UpdateRecord, hp], ?_, ?_, ?_, ?_⟩ <;>
    · intro h
      by_cases h1 : r.Provider = p.Provider <;>
        by_cases h2 : r.Provider2 = p.Provider2 <;>
          simp_all [clearChangedProviderSlots]

/-- Witness for `updateRecord_provider_change_clears` at a stored record with
provider "p", block "100", updated with primary provider changed to "q". -/
theorem updateRecord_provider_change_clears_witness :
    (UpdateRecord
        [Record.mk 1 "o" "n" "t" "org" "ip" "ua" "u" "GET" "uri" "act" "en" "re" "ci" "un" "se" "ob" "resp"
          "p" "100" "bh" "tx" "" "" "" "" false false]
        "o" "n"
        (Record.mk 1 "o" "n" "t" "org" "ip" "ua" "u" "GET" "uri" "act" "en" "re" "ci" "un" "se" "ob" "resp"
          "q" "100" "bh" "tx" "" "" "" "" false false)).2
      = [StoreOp.updateAllCols ("n")
          (clearChangedProviderSlots
            (Record.mk 1 "o" "n" "t" "org" "ip" "ua" "u" "GET" "uri" "act" "en" "re" "ci" "un" "se" "ob" "resp"
              "p" "100" "bh" "tx" "" "" "" "" false false)
            (Record.mk 1 "o" "n" "t" "org" "ip" "ua" "u" "GET" "uri" "act" "en" "re" "ci" "un" "se" "ob" "resp"
              "q" "100" "bh" "tx" "" "" "" "" false false))] :=
  (updateRecord_provider_change_clears
    [Record.mk 1 "o" "n" "t" "org" "ip" "ua" "u" "GET" "uri" "act" "en" "re" "ci" "un" "se" "ob" "resp"
      "p" "100" "bh" "tx" "" "" "" "" false false]
    "o" "n"
    (Record.mk 1 "o" "n" "t" "org" "ip" "ua" "u" "GET" "uri" "act" "en" "re" "ci" "un" "se" "ob" "resp"
      "q" "100" "bh" "tx" "" "" "" "" false false)
    (Record.mk 1 "o" "n" "t" "org" "ip" "ua" "u" "GET" "uri" "act" "en" "re" "ci" "un" "se" "ob" "resp"
      "p" "100" "bh" "tx" "" "" "" "" false false)
    (by decide)).1

/-- C10: record lookup, targeted field update and deletion are keyed by the
name alone: `getRecord` performs the same name-only query for any two
non-empty owners and returns nil when owner or name is empty;
`UpdateRecordFields` is owner-independent and updates every row whose name
matches; `DeleteRecord` deletes every row whose name matches, ignoring the
owner. -/
theorem record_ops_name_keyed (db : List Record) (o1 o2 n : String)
    (f : List (String × String)) (r : Record)
    (h1 : o1 ≠ "") (h2 : o2 ≠ "") :
    getRecord db o1 n = getRecord db o2 n
      ∧ (∀ m : String, getRecord db ("") m = none)
      ∧ (∀ o : String, getRecord db o ("") = none)
      ∧ UpdateRecordFields db o1 n f = UpdateRecordFields db o2 n f
      ∧ (n ≠ "" → runOps db (UpdateRecordFields db o1 n f).2
            = db.map (fun x => if x.Name = n then applyFields x f else x))
      ∧ runOps db (DeleteRecord db r).2 = db.filter (fun x => x.Name ≠ r.Name) := by
  have hget : getRecord db o1 n = getRecord db o2 n := by
    simp [getRecord, h1, h2]
  refine ⟨hget, by intro m; simp [getRecord], by intro o; simp [getRecord], ?_, ?_, rfl⟩
  · unfold UpdateRecordFields
    rw [hget]
  · intro hn
    rcases hfind : db.find? (fun x => x.Name == n) with _ | found
    · have hnone : ∀ x ∈ db, ¬ x.Name = n := by
        intro x hx
        have := List.find?_eq_none.mp hfind x hx
        simpa using this
      have hmap : db.map (fun x => if x.Name = n then applyFields x f else x) = db.map id :=
        List.map_congr_left (fun a ha => by simp [hnone a ha])
      simp [UpdateRecordFields, getRecord, h1, hn, hfind, runOps, hmap]
    · simp [UpdateRecordFields, getRecord, h1, hn, hfind, runOps, applyOp]

/-- Witness for `record_ops_name_keyed` at a one-row table, owners "a" and
"b", name "n". -/
theorem record_ops_name_keyed_witness :
    getRecord
        [Record.mk 1 "o" "n" "t" "org" "ip" "ua" "u" "GET" "uri" "act" "en" "re" "ci" "un" "se" "ob" "resp"
          "" "" "" "" "" "" "" "" false false]
        "a" "n"
      = getRecord
          [Record.mk 1 "o" "n" "t" "org" "ip" "ua" "u" "GET" "uri" "act" "en" "re" "ci" "un" "se" "ob" "resp"
            "" "" "" "" "" "" "" "" false false]
          "b" "n" :=
  (record_ops_name_keyed
    [Record.mk 1 "o" "n" "t" "org" "ip" "ua" "u" "GET" "uri" "act" "en" "re" "ci" "un" "se" "ob" "resp"
      "" "" "" "" "" "" "" "" false false]
    "a" "b" "n" [(("provider"), "p")]
    (Record.mk 1 "o" "n" "t" "org" "ip" "ua" "u" "GET" "uri" "act" "en" "re" "ci" "un" "se" "ob" "resp"
      "" "" "" "" "" "" "" "" false false)
    (by decide) (by decide)).1

/-- A ledger-provider configuration. Only the `Name` field is consumed by the
commit orchestration itself; the remaining configuration is consumed by the
external chain-client constructor, which the model abstracts. -/
structure Provider where
  Name : String
deriving DecidableEq

/-- The `chain.ChainClientInterface` capability:
`Commit(data) -> (blockId, txId, blockHash, err)` and
`Query(txHash, data) -> (resultText, err)`, with the Go error modelled as
`Option String`. -/
structure ChainClient where
  Commit : String → String × String × String × Option String
  Query : String → String → String × Option String

/-- The provider directory and chain-client constructor (external
collaborators per the spec), as the environment of the commit paths. -/
structure ChainEnv where
  getProvider : String → Except String (Option Provider)
  GetActiveBlockchainProvider : Except String (Option Provider)
  GetTwoActiveBlockchainProvider : Except String (Option Provider × Option Provider)
  NewChainClient : Provider → Except String ChainClient

/-- `(record *Record) getRecordProvider(chainProvider)`: a named provider is
looked up (erroring if unknown); an empty name selects the active provider. -/
def getRecordProvider (env : ChainEnv) (chainProvider : String) :
    Except String (Option Provider) :=
  if chainProvider ≠ "" then
    match env.getProvider chainProvider with
    | Except.error e => Except.error e
    | Except.ok none =>
        Except.error ("the blockchain provider: " ++ chainProvider ++ " is not found")
    | Except.ok (some provider) => Except.ok (some provider)
  else
    env.GetActiveBlockchainProvider

/-- `(record *Record) getRecordChainClient(chainProvider)`: resolve the
provider, then construct the chain client for it. -/
def getRecordChainClient (env : ChainEnv) (chainProvider : String) :
    Except String (ChainClient × Provider) :=
  match getRecordProvider env chainProvider with
  | Except.error e => Except.error e
  | Except.ok none => Except.error ("there is no active blockchain provider")
  | Except.ok (some provider) =>
      match env.NewChainClient provider with
      | Except.error e => Except.error e
      | Except.ok client => Except.ok (client, provider)

/-- The four primary-slot column names written by `CommitRecord`. -/
def primaryCommitFields : List String :=
  [("provider"), ("block"), ("transaction"), ("block_hash")]

/-- The four secondary-slot column names written by `CommitRecordSecond`. -/
def secondaryCommitFields : List String :=
  [("provider2"), ("block2"), ("transaction2"), ("block_hash2")]

/-- `CommitRecord(record)`: reject if the primary slot is already committed;
resolve the chain client; set `record.Provider`; commit the canonical
payload; on success persist the four primary-slot columns through
`UpdateRecordFields`. Returns the Go triple `(affected, data, err)`, the
in-memory record after the call, and the store-operation trace. -/
def CommitRecord (env : ChainEnv) (db : List Record) (record : Record) :
    (Bool × Option (List (String × String)) × Option String) × Record × List StoreOp :=
  if record.Block ≠ "" then
    ((false, none,
        some ("the record: " ++ record.getId ++ " has already been committed, blockId = "
          ++ record.Block)),
      record, [])
  else
    match getRecordChainClient env record.Provider with
    | Except.error e => ((false, none, some e), record, [])
    | Except.ok (client, provider) =>
        let record2 := { record with Provider := provider.Name }
        let result := client.Commit record2.toParam
        match result.2.2.2 with
        | some e => ((false, none, some e), record2, [])
        | none =>
            let data := [(("provider"), record2.Provider), (("block"), result.1),
              (("transaction"), result.2.1), (("block_hash"), result.2.2.1)]
            let u := UpdateRecordFields db record2.Owner record2.Name data
            ((u.1, some data, none), record2, u.2)

/-- `CommitRecordSecond(record)`: the same orchestration against the
secondary slot (`Block2`, `Provider2`, and the four `*2` columns). Returns
the Go pair `(affected, err)`, the in-memory record, and the trace. -/
def CommitRecordSecond (env : ChainEnv) (db : List Record) (record : Record) :
    (Bool × Option String) × Record × List StoreOp :=
  if record.Block2 ≠ "" then
    ((false,
        some ("the record: " ++ record.getId ++ " has already been committed, blockId = "
          ++ record.Block2)),
      record, [])
  else
    match getRecordChainClient env record.Provider2 with
    | Except.error e => ((false, some e), record, [])
    | Except.ok (client, provider) =>
        let record2 := { record with Provider2 := provider.Name }
        let result := client.Commit record2.toParam
        match result.2.2.2 with
        | some e => ((false, some e), record2, [])
        | none =>
            let u := UpdateRecordFields db record2.Owner record2.Name
              [(("provider2"), record2.Provider2), (("block2"), result.1),
                (("transaction2"), result.2.1), (("block_hash2"), result.2.2.1)]
            ((u.1, none), record2, u.2)

/-- A concrete record used by witnesses (anchoring fields all empty). -/
def sampleRecord : Record :=
  Record.mk 1 "o" "n" "t" "org" "ip" "ua" "u" "GET" "uri" "act" "en" "re" "ci" "un" "se" "ob" "resp"
    "" "" "" "" "" "" "" "" false false

/-- A concrete chain client whose `Commit` always fails, for witnesses. -/
def failingChainClient : ChainClient :=
  ChainClient.mk (fun _ => ("", "", "", some ("boom"))) (fun _ _ => ("", none))

/-- A concrete environment resolving every provider to `"p"` and every
client to `failingChainClient`, for witnesses. -/
def failingChainEnv : ChainEnv :=
  ChainEnv.mk (fun _ => Except.ok (some (Provider.mk ("p"))))
    (Except.ok (some (Provider.mk ("p"))))
    (Except.ok (some (Provider.mk ("p")), some (Provider.mk ("q"))))
    (fun _ => Except.ok failingChainClient)

/-- C1: committing an already-committed slot is rejected: with `Block`
non-empty, `CommitRecord` returns an error naming the committed block id and
leaves the record (all its fields, in particular the primary slot) and the
store untouched; independently, `CommitRecordSecond` does the same when
`Block2` is non-empty. -/
theorem commitRecord_write_once (env : ChainEnv) (db : List Record) (r : Record)
    (h : r.Block ≠ "") :
    CommitRecord env db r
        = ((false, none,
              some ("the record: " ++ r.getId ++ " has already been committed, blockId = "
                ++ r.Block)),
            r, [])
      ∧ (∀ (env2 : ChainEnv) (db2 : List Record) (r2 : Record), r2.Block2 ≠ "" →
          CommitRecordSecond env2 db2 r2
            = ((false,
                  some ("the record: " ++ r2.getId ++ " has already been committed, blockId = "
                    ++ r2.Block2)),
                r2, [])) := by
  constructor
  · simp [CommitRecord, h]
  · intro env2 db2 r2 h2
    simp [CommitRecordSecond, h2]

/-- Witness for `commitRecord_write_once` at a record whose primary slot is
already committed with block id "12345". -/
theorem commitRecord_write_once_witness :
    CommitRecord failingChainEnv [] { sampleRecord with Block := "12345" }
      = ((false, none,
            some ("the record: " ++ ({ sampleRecord with Block := "12345" } : Record).getId
              ++ " has already been committed, blockId = "
              ++ ({ sampleRecord with Block := "12345" } : Record).Block)),
          { sampleRecord with Block := "12345" }, []) :=
  (commitRecord_write_once failingChainEnv [] { sampleRecord with Block := "12345" }
    (by decide)).1

/-- C4: the commit paths never issue anything but a targeted partial field
update: `CommitRecord`'s store trace is empty or exactly one
`updateFields` op on the record's name carrying precisely the four
primary-slot columns, `CommitRecordSecond` likewise with precisely the four
secondary-slot columns, and the two column sets are disjoint. -/
theorem commit_persists_exact_slot_fields (env : ChainEnv) (db : List Record) (r : Record) :
    ((CommitRecord env db r).2.2 = []
        ∨ ∃ pn bid tid bh, (CommitRecord env db r).2.2
            = [StoreOp.updateFields r.Name
                [(("provider"), pn), (("block"), bid), (("transaction"), tid),
                  (("block_hash"), bh)]]
              ∧ [(("provider"), pn), (("block"), bid), (("transaction"), tid),
                  (("block_hash"), bh)].map Prod.fst = primaryCommitFields)
      ∧ ((CommitRecordSecond env db r).2.2 = []
        ∨ ∃ pn bid tid bh, (CommitRecordSecond env db r).2.2
            = [StoreOp.updateFields r.Name
                [(("provider2"), pn), (("block2"), bid), (("transaction2"), tid),
                  (("block_hash2"), bh)]]
              ∧ [(("provider2"), pn), (("block2"), bid), (("transaction2"), tid),
                  (("block_hash2"), bh)].map Prod.fst = secondaryCommitFields)
      ∧ primaryCommitFields.all (fun k => !(secondaryCommitFields.contains k)) = true := by
  refine ⟨?_, ?_, by decide⟩
  · simp only [CommitRecord]
    split
    · exact Or.inl rfl
    · split
      · exact Or.inl rfl
      · split
        · exact Or.inl rfl
        · rcases hget : getRecord db r.Owner r.Name with _ | found
          · left
            simp [UpdateRecordFields, hget]
          · simp only [UpdateRecordFields, hget]
            exact Or.inr ⟨_, _, _, _, rfl, by simp [primaryCommitFields]⟩
  · simp only [CommitRecordSecond]
    split
    · exact Or.inl rfl
    · split
      · exact Or.inl rfl
      · split
        · exact Or.inl rfl
        · rcases hget : getRecord db r.Owner r.Name with _ | found
          · left
            simp [UpdateRecordFields, hget]
          · simp only [UpdateRecordFields, hget]
            exact Or.inr ⟨_, _, _, _, rfl, by simp [secondaryCommitFields]⟩

/-- The `ethereum.CallMsg` built by the Ethereum client's `Commit`
(addresses as hex strings, amounts as integers, data as the payload). -/
structure CallMsg where
  From : String
  To : String
  GasPrice : Int
  Value : Int
  Data : String

/-- The unsigned transaction built by `types.NewTransaction`. -/
structure Tx where
  Nonce : Nat
  To : String
  Value : Int
  GasLimit : Nat
  GasPrice : Int
  Data : String

/-- A signed transaction; only its hash is consumed by the client. -/
structure SignedTx where
  HashHex : String
deriving DecidableEq

/-- A transaction receipt: `BlockHash.Hex()` and `BlockNumber.String()`. -/
structure Receipt where
  BlockHashHex : String
  BlockNumberStr : String
deriving DecidableEq

/-- The `EthereumClient`, with each go-ethereum node call it performs
(`PendingNonceAt`, `SuggestGasPrice`, `EstimateGas`, `ChainID`, `SignTx`,
`SendTransaction`, `WaitMined`, `TransactionReceipt`, `TransactionByHash`)
as an environment function; `TransactionByHash` yields the stored
transaction's data bytes (`tx.Data()`). -/
structure EthereumClient where
  FromAddress : String
  PendingNonceAt : Except String Nat
  SuggestGasPrice : Except String Int
  EstimateGas : CallMsg → Except String Nat
  ChainID : Except String Int
  SignTx : Tx → Int → Except String SignedTx
  SendTransaction : SignedTx → Option String
  WaitMined : SignedTx → Except String Receipt
  TransactionReceipt : String → Except String Receipt
  TransactionByHash : String → Except String String

/-- `(client *EthereumClient) Commit(data)`: nonce, gas price, gas estimate,
chain id, signing, broadcast, then a bounded wait for mining; every failure
returns empty identifiers with the error, and only a mined receipt yields
`(blockNumber, txHash, blockHash, nil)`. -/
def EthereumClient.Commit (client : EthereumClient) (data : String) :
    String × String × String × Option String :=
  match client.PendingNonceAt with
  | Except.error e => ("", "", "", some e)
  | Except.ok nonce =>
    match client.SuggestGasPrice with
    | Except.error e => ("", "", "", some e)
    | Except.ok gasPrice =>
      let value : Int := 0
      let dataBytes := data
      let msg := CallMsg.mk client.FromAddress client.FromAddress gasPrice value dataBytes
      match client.EstimateGas msg with
      | Except.error e => ("", "", "", some e)
      | Except.ok gasLimit =>
        let toAddress := client.FromAddress
        let tx := Tx.mk nonce toAddress value gasLimit gasPrice dataBytes
        match client.ChainID with
        | Except.error e => ("", "", "", some e)
        | Except.ok chainID =>
          match client.SignTx tx chainID with
          | Except.error e => ("", "", "", some e)
          | Except.ok signedTx =>
            match client.SendTransaction signedTx with
            | some e => ("", "", "", some e)
            | none =>
              let txHash := signedTx.HashHex
              match client.WaitMined signedTx with
              | Except.error e =>
                  ("", "", "", some ("transaction failed to be mined: " ++ e))
              | Except.ok receipt =>
                  (receipt.BlockNumberStr, txHash, receipt.BlockHashHex, none)

/-- The 54-asterisk separator line of the query verdict. -/
def stars54 : String :=
  String.mk (List.replicate 54 ('*'))

/-- `(client *EthereumClient) Query(txHash, data)`: fetch the receipt and the
transaction, compare the on-chain data bytes with the local payload, and
return a "Matched"/"Mismatched" verdict text as a normal result. -/
def EthereumClient.Query (client : EthereumClient) (txHash data : String) :
    String × Option String :=
  match client.TransactionReceipt txHash with
  | Except.error e => ("", some e)
  | Except.ok receipt =>
    let blockId := receipt.BlockNumberStr
    match client.TransactionByHash txHash with
    | Except.error e => ("", some e)
    | Except.ok chainData =>
      -- the source pre-initializes the verdict to "Mismatched" and always overwrites it
      let res := if chainData == data then
          "Matched\n" ++ stars54 ++ "\nData:\n\n" ++ chainData
        else
          "Mismatched\n" ++ stars54 ++ "\nChain data:\n\n" ++ chainData ++ "\n" ++ stars54
            ++ "\nLocal data:\n\n" ++ data
      ("The query result for block [" ++ blockId ++ "] is: " ++ res, none)

/-- C5: commit failure is atomic. If the resolved ledger client's `Commit`
errors, `CommitRecord` propagates the error with an empty store trace (no
update, anchoring fields untouched, write-once guard never set), and
likewise `CommitRecordSecond`; and the Ethereum client's `Commit` returns
empty block id, transaction id and block hash whenever it returns an
error. -/
theorem commit_failure_is_atomic (env : ChainEnv) (db : List Record) (r : Record)
    (client : ChainClient) (provider : Provider) (e : String)
    (hb : r.Block = "")
    (hres : getRecordChainClient env r.Provider = Except.ok (client, provider))
    (hc : (client.Commit (Record.toParam { r with Provider := provider.Name })).2.2.2
        = some e) :
    CommitRecord env db r = ((false, none, some e), { r with Provider := provider.Name }, [])
      ∧ (∀ (env2 : ChainEnv) (db2 : List Record) (r2 : Record) (client2 : ChainClient)
            (provider2 : Provider) (e2 : String),
          r2.Block2 = "" →
          getRecordChainClient env2 r2.Provider2 = Except.ok (client2, provider2) →
          (client2.Commit (Record.toParam { r2 with Provider2 := provider2.Name })).2.2.2
              = some e2 →
          CommitRecordSecond env2 db2 r2
            = ((false, some e2), { r2 with Provider2 := provider2.Name }, []))
      ∧ (∀ (c : EthereumClient) (data bid tid bh e3 : String),
          c.Commit data = (bid, tid, bh, some e3) → bid = "" ∧ tid = "" ∧ bh = "") := by
  refine ⟨?_, ?_, ?_⟩
  · simp only [hb] at hc
    simp [CommitRecord, hb, hres, hc]
  · intro env2 db2 r2 client2 provider2 e2 hb2 hres2 hc2
    simp only [hb2] at hc2
    simp [CommitRecordSecond, hb2, hres2, hc2]
  · intro c data bid tid bh e3 hcm
    unfold EthereumClient.Commit at hcm
    rcases h1 : c.PendingNonceAt with e1 | nonce
    · simp only [h1, Prod.mk.injEq] at hcm
      exact ⟨hcm.1.symm, hcm.2.1.symm, hcm.2.2.1.symm⟩
    · simp only [h1] at hcm
      rcases h2 : c.SuggestGasPrice with e2 | gasPrice
      · simp only [h2, Prod.mk.injEq] at hcm
        exact ⟨hcm.1.symm, hcm.2.1.symm, hcm.2.2.1.symm⟩
      · simp only [h2] at hcm
        rcases h3 : c.EstimateGas
            (CallMsg.mk c.FromAddress c.FromAddress gasPrice 0 data) with e4 | gasLimit
        · simp only [h3, Prod.mk.injEq] at hcm
          exact ⟨hcm.1.symm, hcm.2.1.symm, hcm.2.2.1.symm⟩
        · simp only [h3] at hcm
          rcases h4 : c.ChainID with e5 | chainID
          · simp only [h4, Prod.mk.injEq] at hcm
            exact ⟨hcm.1.symm, hcm.2.1.symm, hcm.2.2.1.symm⟩
          · simp only [h4] at hcm
            rcases h5 : c.SignTx
                (Tx.mk nonce c.FromAddress 0 gasLimit gasPrice data) chainID with e6 | signedTx
            · simp only [h5, Prod.mk.injEq] at hcm
              exact ⟨hcm.1.symm, hcm.2.1.symm, hcm.2.2.1.symm⟩
            · simp only [h5] at hcm
              rcases h6 : c.SendTransaction signedTx with _ | e7
              · simp only [h6] at hcm
                rcases h7 : c.WaitMined signedTx with e8 | receipt
                · simp only [h7, Prod.mk.injEq] at hcm
                  exact ⟨hcm.1.symm, hcm.2.1.symm, hcm.2.2.1.symm⟩
                · simp only [h7, Prod.mk.injEq] at hcm
                  simp at hcm
              · simp only [h6, Prod.mk.injEq] at hcm
                exact ⟨hcm.1.symm, hcm.2.1.symm, hcm.2.2.1.symm⟩

/-- Witness for `commit_failure_is_atomic`: committing `sampleRecord` through
a client that always fails propagates "boom" and issues no store op. -/
theorem commit_failure_is_atomic_witness :
    CommitRecord failingChainEnv [] sampleRecord
      = ((false, none, some ("boom")), { sampleRecord with Provider := "p" }, []) :=
  (commit_failure_is_atomic failingChainEnv [] sampleRecord failingChainClient
    (Provider.mk ("p")) ("boom") rfl rfl rfl).1

/-- C7: the Ethereum client's `Query` reports integrity as a normal result,
never as an error: on byte-equal payloads it returns a verdict containing
"Matched" embedding the matched payload; on any difference it returns a
verdict containing "Mismatched" embedding both the on-chain and the local
payload. -/
theorem ethereumQuery_verdict (client : EthereumClient) (txHash data : String)
    (receipt : Receipt) (chainData : String)
    (h1 : client.TransactionReceipt txHash = Except.ok receipt)
    (h2 : client.TransactionByHash txHash = Except.ok chainData) :
    (chainData = data →
      client.Query txHash data
        = ("The query result for block [" ++ receipt.BlockNumberStr ++ "] is: "
            ++ ("Matched\n" ++ stars54 ++ "\nData:\n\n" ++ chainData), none))
      ∧ (chainData ≠ data →
        client.Query txHash data
          = ("The query result for block [" ++ receipt.BlockNumberStr ++ "] is: "
              ++ ("Mismatched\n" ++ stars54 ++ "\nChain data:\n\n" ++ chainData ++ "\n"
                ++ stars54 ++ "\nLocal data:\n\n" ++ data), none)) := by
  constructor
  · intro heq
    simp [EthereumClient.Query, h1, h2, heq]
  · intro hne
    simp [EthereumClient.Query, h1, h2, beq_iff_eq, hne]

/-- A concrete Ethereum client whose ledger stores "PAY" for every
transaction, for witnesses. -/
def queryEthClient : EthereumClient :=
  EthereumClient.mk ("addr") (Except.ok 0) (Except.ok 1) (fun _ => Except.ok 21000)
    (Except.ok 1) (fun _ _ => Except.ok (SignedTx.mk ("txh"))) (fun _ => none)
    (fun _ => Except.ok (Receipt.mk ("bh") ("7")))
    (fun _ => Except.ok (Receipt.mk ("bh") ("7")))
    (fun _ => Except.ok ("PAY"))

/-- Witness for `ethereumQuery_verdict`: a matching query on "PAY" and a
mismatching query on "OTHER" both return normal verdicts. -/
theorem ethereumQuery_verdict_witness :
    EthereumClient.Query queryEthClient ("t") ("PAY")
        = ("The query result for block [" ++ (Receipt.mk ("bh") ("7")).BlockNumberStr ++ "] is: "
            ++ ("Matched\n" ++ stars54 ++ "\nData:\n\n" ++ "PAY"), none)
      ∧ EthereumClient.Query queryEthClient ("t") ("OTHER")
        = ("The query result for block [" ++ (Receipt.mk ("bh") ("7")).BlockNumberStr ++ "] is: "
            ++ ("Mismatched\n" ++ stars54 ++ "\nChain data:\n\n" ++ "PAY" ++ "\n"
              ++ stars54 ++ "\nLocal data:\n\n" ++ "OTHER"), none) :=
  ⟨(ethereumQuery_verdict queryEthClient ("t") ("PAY") (Receipt.mk ("bh") ("7")) "PAY" rfl rfl).1 rfl,
    (ethereumQuery_verdict queryEthClient ("t") ("OTHER") (Receipt.mk ("bh") ("7")) "PAY" rfl rfl).2
      (by decide)⟩

/-- `AddRecord(record)`, with `logPostOnly` as the "log POST only"
configuration flag: skip GETs under that policy, skip the commit/query
actions themselves, auto-bind the two active providers when none is set,
scope the owner to the organization, insert, and commit immediately when
`NeedCommit` is set. The non-commit insert acknowledgement is `true`
(`affected != 0` for a successful single-row insert). -/
def AddRecord (logPostOnly : Bool) (env : ChainEnv) (db : List Record) (record : Record) :
    (Bool × Option (List (String × String)) × Option String) × List StoreOp :=
  if logPostOnly && (record.Method == "GET") then ((false, none, none), [])
  else if record.Action.endsWith ("-record") then ((false, none, none), [])
  else if record.Action.endsWith ("-record-second") then ((false, none, none), [])
  else
    let step : Except String Record :=
      if record.Provider == "" then
        match env.GetTwoActiveBlockchainProvider with
        | Except.error e => Except.error e
        | Except.ok (p1, p2) =>
            let record := match p1 with
              | some p => { record with Provider := p.Name }
              | none => record
            let record := match p2 with
              | some p => { record with Provider2 := p.Name }
              | none => record
            Except.ok record
      else Except.ok record
    match step with
    | Except.error e => ((false, none, some e), [])
    | Except.ok record1 =>
        let record2 := { record1 with Owner := record1.Organization }
        let db2 := db ++ [record2]
        if record2.NeedCommit then
          let c := CommitRecord env db2 record2
          match c.1.2.2 with
          | some e => ((false, none, some e), StoreOp.insert record2 :: c.2.2)
          | none => ((c.1.1, c.1.2.1, none), StoreOp.insert record2 :: c.2.2)
        else
          ((true, none, none), [StoreOp.insert record2])

/-- C8: with the `logPostOnly` configuration set, `AddRecord` on a record
whose method is GET is a no-op, not an error: it returns `(false, nil, nil)`
and issues no store operation (in particular no insert). -/
theorem addRecord_skips_get_when_logPostOnly (env : ChainEnv) (db : List Record)
    (r : Record) (h : r.Method = "GET") :
    AddRecord true env db r = ((false, none, none), []) := by
  simp [AddRecord, h]

/-- Witness for `addRecord_skips_get_when_logPostOnly` on `sampleRecord`,
whose method is GET. -/
theorem addRecord_skips_get_when_logPostOnly_witness :
    AddRecord true failingChainEnv [] sampleRecord = ((false, none, none), []) :=
  addRecord_skips_get_when_logPostOnly failingChainEnv [] sampleRecord (by decide)

/-- Whether `pattern` is an initial segment of `s` (helper of the
`strings.Replace` embedding). -/
def startsWithList : List Char → List Char → Bool
  | [], _ => true
  | _ :: _, [] => false
  | p :: ps, c :: cs => p == c && startsWithList ps cs

/-- Fuel-driven worker of the `strings.Replace` embedding; the fuel is the
length of the scanned text, enough because a match consumes at least one
character of a non-empty pattern. -/
def replaceLoop (pattern replacement : List Char) : Nat → List Char → List Char
  | _, [] => []
  | 0, s => s
  | Nat.succ fuel, c :: cs =>
    if startsWithList pattern (c :: cs) then
      replacement ++ replaceLoop pattern replacement fuel (List.drop pattern.length (c :: cs))
    else
      c :: replaceLoop pattern replacement fuel cs

/-- Go `strings.Replace(s, pattern, replacement, -1)`: replace every
non-overlapping occurrence. The empty-pattern case never arises in the
embedded code and is mapped to the identity. -/
def goReplaceAll (s pattern replacement : String) : String :=
  if pattern = "" then s
  else String.mk (replaceLoop pattern.data replacement.data s.data.length s.data)

/-- The `Response` struct parsed from the handler's response data. -/
structure Response where
  Status : String
  Msg : String
deriving DecidableEq

/-- The geolocation lookup result (`util.GetInfoFromIP`). -/
structure LocationInfo where
  Country : String
  City : String
deriving DecidableEq

/-- The inbound request context consumed by `NewRecord`, carrying the results
of the external helpers: `ip` is `util.GetIPFromRequest`'s result before
normalization, `requestUriFiltered` is the request URI after
`util.FilterQuery(..., ["accessToken"])`, `resp` is the parsed
`\x7bstatus, msg\x7d` response data, `languageOf` is `conf.GetLanguage`,
`locationOf` is `util.GetInfoFromIP`, `generatedName` is `util.GenerateId`
and `currentTime` is `util.GetCurrentTime`. -/
structure RequestContext where
  ip : String
  urlPath : String
  requestUriFiltered : String
  requestBody : String
  resp : Except String Response
  acceptLanguage : String
  languageOf : String → String
  locationOf : String → Except String LocationInfo
  method : String
  generatedName : String
  currentTime : String

/-- `NewRecord(ctx)`: normalize the client ip, derive the action from the
path, truncate the filtered request URI to 1000 characters, parse the
response, resolve the 2-letter language code, resolve geolocation (fatal on
failure), and construct the record. -/
def NewRecord (ctx : RequestContext) : Except String Record :=
  let ip := goReplaceAll ctx.ip (": ") ("")
  let action := goReplaceAll ctx.urlPath ("/api/") ("")
  let requestUri := ctx.requestUriFiltered
  let requestUri := if requestUri.length > 1000 then
      String.mk (requestUri.data.take 1000)
    else requestUri
  let object := ctx.requestBody
  match ctx.resp with
  | Except.error e => Except.error e
  | Except.ok resp =>
    let language := if ctx.acceptLanguage.length > 2 then
        String.mk (ctx.acceptLanguage.data.take 2)
      else ctx.acceptLanguage
    let languageCode := ctx.languageOf language
    match ctx.locationOf ip with
    | Except.error e => Except.error e
    | Except.ok locationInfo =>
      let region := locationInfo.Country
      let city := locationInfo.City
      Except.ok (Record.mk 0 ("") ctx.generatedName ctx.currentTime ("") ip ("") ("")
        ctx.method requestUri action languageCode region city ("") ("") object
        ("\x7b\"status\":\"" ++ resp.Status ++ "\",\"msg\":\"" ++ resp.Msg ++ "\"\x7d")
        ("") ("") ("") ("") ("") ("") ("") ("") false false)

/-- C9: `NewRecord` stores the accessToken-filtered request URI truncated to
exactly its first 1000 characters when it is longer than 1000, and unchanged
otherwise. -/
theorem newRecord_truncates_requestUri (ctx : RequestContext) (r : Record)
    (hok : NewRecord ctx = Except.ok r) :
    (ctx.requestUriFiltered.length > 1000 →
        r.RequestUri = String.mk (ctx.requestUriFiltered.data.take 1000)
          ∧ r.RequestUri.length = 1000)
      ∧ (ctx.requestUriFiltered.length ≤ 1000 → r.RequestUri = ctx.requestUriFiltered) := by
  rcases hresp : ctx.resp with e | resp
  · simp [NewRecord, hresp] at hok
  · rcases hloc : ctx.locationOf (goReplaceAll ctx.ip (": ") ("")) with e | loc
    · simp [NewRecord, hresp, hloc] at hok
    · simp only [NewRecord, hresp, hloc] at hok
      injection hok with h
      subst h
      have hlen : ctx.requestUriFiltered.length = ctx.requestUriFiltered.data.length := rfl
      constructor
      · intro hgt
        refine ⟨by simp [hgt], ?_⟩
        simp only [hgt, if_pos]
        show (List.take 1000 ctx.requestUriFiltered.data).length = 1000
        rw [List.length_take]
        omega
      · intro hle
        have hno : ¬ 1000 < ctx.requestUriFiltered.length := by omega
        simp [hno]

/-- A concrete request context whose filtered URI is 1001 characters long,
for the truncation witness. -/
def longUriCtx : RequestContext :=
  RequestContext.mk ("ip") ("/api/act") (String.mk (List.replicate 1001 ('a'))) ("body")
    (Except.ok (Response.mk ("ok") ("m"))) ("en-US") (fun _ => "en")
    (fun _ => Except.ok (LocationInfo.mk ("US") ("SF"))) ("GET") ("gen") ("now")

/-- The record `NewRecord` produces from `longUriCtx`. -/
def longUriRecord : Record :=
  Record.mk 0 ("") ("gen") ("now") ("") ("ip") ("") ("") ("GET")
    (String.mk (List.replicate 1000 ('a'))) ("act") ("en") ("US") ("SF") ("") ("") ("body")
    ("\x7b\"status\":\"ok\",\"msg\":\"m\"\x7d")
    ("") ("") ("") ("") ("") ("") ("") ("") false false

set_option maxRecDepth 8000 in
/-- Witness for `newRecord_truncates_requestUri`: a 1001-character URI is
stored as exactly its first 1000 characters. -/
theorem newRecord_truncates_requestUri_witness :
    longUriRecord.RequestUri = String.mk (longUriCtx.requestUriFiltered.data.take 1000)
      ∧ longUriRecord.RequestUri.length = 1000 :=
  (newRecord_truncates_requestUri longUriCtx longUriRecord (by rfl)).1 (by decide)
